import Mathlib

/-!
Verification of the streaming-session client script `pr_trigger_v2.py`
against its natural-language specification.

The code of the script itself (the event handler, the control flow of
`main`, the blog-folder bootstrap, the session configuration literal) is
embedded directly from the source.  The behaviour of the external `copilot`
library (`send_and_wait`, `create_session` validation) is not part of the
repository; where a claim depends on it, a definition modelled from the
specification text is used and marked as such.
-/

namespace PrTrigger

/-- The event kinds named by the specification: the two the handler reacts
to, plus the anticipated error and tool-call kinds (spec section 3). -/
inductive SessionEventType
  | ASSISTANT_MESSAGE_DELTA
  | SESSION_IDLE
  | SESSION_ERROR
  | TOOL_CALL
deriving DecidableEq, Repr

/-- The payload object of an event.  `delta_content = none` models a payload
that lacks the `delta_content` attribute (for example the empty payload of an
idle event); accessing the attribute on such a payload raises in Python. -/
structure EventData where
  delta_content : Option String
deriving DecidableEq, Repr

/-- An event: a type tag plus a payload (spec section 3, `Event`). -/
structure SessionEvent where
  type : SessionEventType
  data : EventData
deriving DecidableEq, Repr

/-- The one runtime error the handler could raise: an attribute access on a
payload that lacks the attribute. -/
inductive PyError
  | attributeError
deriving DecidableEq, Repr

/-- First statement of `handle_event` (source lines 40-42): when the event
type is `ASSISTANT_MESSAGE_DELTA`, write `event.data.delta_content` to
stdout and flush; raises if the payload lacks the attribute. -/
def deltaPart (event : SessionEvent) : Except PyError String :=
  if event.type = SessionEventType.ASSISTANT_MESSAGE_DELTA then
    match event.data.delta_content with
    | some s => Except.ok s
    | none => Except.error PyError.attributeError
  else Except.ok ""

/-- Second statement of `handle_event` (source lines 43-44): when the event
type is `SESSION_IDLE`, `print("\n")` writes a newline plus the newline
appended by `print`, rendering a blank line. -/
def idlePart (event : SessionEvent) : String :=
  if event.type = SessionEventType.SESSION_IDLE then "\n" ++ "\n" else ""

/-- The handler registered via `session.on` (source lines 39-44): two
independent `if` statements run in order; the text written to stdout is the
concatenation of their outputs. -/
def handle_event (event : SessionEvent) : Except PyError String :=
  (deltaPart event).map (fun s => s ++ idlePart event)

/-- Synchronous in-order dispatch of a sequence of events to the single
registered handler; the observable stdout text is the in-order concatenation
of the per-event output of the handler. -/
def dispatchAll : List SessionEvent → Except PyError String
  | [] => Except.ok ""
  | e :: es =>
      (handle_event e).bind fun o => (dispatchAll es).map fun rest => o ++ rest

/-- The output the specification prescribes for one event: its delta
fragment for a delta event, a blank line for an idle event, nothing
otherwise (spec sections 3 and 6). -/
def specFragment (e : SessionEvent) : String :=
  match e.type, e.data.delta_content with
  | SessionEventType.ASSISTANT_MESSAGE_DELTA, some s => s
  | SessionEventType.ASSISTANT_MESSAGE_DELTA, none => ""
  | SessionEventType.SESSION_IDLE, _ => "\n" ++ "\n"
  | _, _ => ""

/-- The output the specification prescribes for an event sequence: the
in-order concatenation of the per-event fragments. -/
def specStream : List SessionEvent → String
  | [] => ""
  | e :: es => specFragment e ++ specStream es

/-- An event is well formed when a delta-typed event carries its
`delta_content` attribute (spec: the type fully determines the shape of the
payload). -/
def WellFormed (e : SessionEvent) : Prop :=
  e.type = SessionEventType.ASSISTANT_MESSAGE_DELTA → e.data.delta_content ≠ none

instance (e : SessionEvent) : Decidable (WellFormed e) :=
  inferInstanceAs (Decidable
    (e.type = SessionEventType.ASSISTANT_MESSAGE_DELTA →
      e.data.delta_content ≠ none))

/-- `os.path.join(work_dir, "blog")` (source line 19), for a working
directory without a trailing separator. -/
def blog_dir (work_dir : String) : String := work_dir ++ "/blog"

/-- The filesystem effect of the blog-folder bootstrap (source lines 20-21),
on a filesystem modelled as the list of existing paths: create the blog
directory exactly when it does not already exist. -/
def blogStep (work_dir : String) (fs : List String) : List String :=
  if blog_dir work_dir ∈ fs then fs else blog_dir work_dir :: fs

/-- The 80-character separator `"=" * 80` used by the banners. -/
def eq80 : String := String.mk (List.replicate 80 (Char.ofNat 61))

/-- The line the blog-folder bootstrap prints (source lines 22 and 24),
depending on whether the directory already existed. -/
def blogStepOutput (work_dir : String) (blogExists : Bool) : String :=
  if blogExists then "✓ Blog folder exists at: " ++ blog_dir work_dir ++ "\n"
  else "✓ Created blog folder at: " ++ blog_dir work_dir ++ "\n"

/-- Everything `main` writes to stdout on a normal run, one summand per
print statement in source order (lines 22/24, 33, 34, 35, 36, the handler
output written while `send_and_wait` is pending, 56, 57, 58); `print`
appends a newline to its argument. -/
def mainStdout (work_dir : String) (blogExists : Bool) (session_id : String)
    (streamText : String) : String :=
  blogStepOutput work_dir blogExists
  ++ ("✓ Session created with ID: " ++ session_id ++ "\n")
  ++ ("\n" ++ eq80 ++ "\n")
  ++ ("Starting PR Analysis..." ++ "\n")
  ++ (eq80 ++ "\n" ++ "\n")
  ++ streamText
  ++ ("\n" ++ eq80 ++ "\n")
  ++ ("Analysis Complete!" ++ "\n")
  ++ (eq80 ++ "\n")

/-- The stdout text preceding the streamed handler output: folder status,
session id, and the start banner (source lines 22-36). -/
def preludeOut (work_dir : String) (blogExists : Bool)
    (session_id : String) : String :=
  blogStepOutput work_dir blogExists
  ++ ("✓ Session created with ID: " ++ session_id ++ "\n")
  ++ ("\n" ++ eq80 ++ "\n")
  ++ ("Starting PR Analysis..." ++ "\n")
  ++ (eq80 ++ "\n" ++ "\n")

/-- The stdout text following the streamed handler output: the completion
banner (source lines 56-58). -/
def epilogueOut : String :=
  ("\n" ++ eq80 ++ "\n")
  ++ ("Analysis Complete!" ++ "\n")
  ++ (eq80 ++ "\n")

/-- The session configuration record (spec section 3, `SessionConfig`). -/
structure SessionConfig where
  model : String
  streaming : Bool
  skill_directories : List String
deriving DecidableEq, Repr

/-- The skill-definition path (source line 16). -/
def skills_dir : String := "./.copilot_skills/pr-analyzer/SKILL.md"

/-- The config argument the script passes to `create_session` (source lines
27-31). -/
def sessionConfig : SessionConfig :=
  { model := "claude-sonnet-4.5"
    streaming := true
    skill_directories := [skills_dir] }

/-- Modelled from the spec: a syntactically valid path, for the
`create_session` validation of the external copilot library (spec section
4.3: entries must be syntactically valid paths, existence is not checked) —
a non-empty string without a NUL character. -/
def syntacticallyValidPath (p : String) : Bool :=
  p ≠ "" && p.data.all (fun c => c ≠ Char.ofNat 0)

/-- Result of the config validation in `createSession` (spec sections 4.3
and 7); `configError` is the `ConfigError` branch. -/
inductive ConfigValidity
  | valid
  | configError
deriving DecidableEq, Repr

/-- Modelled from the spec: the `createSession` config validation of the
external copilot library, which is not part of the repository (spec section
4.3: model identifier non-empty, skill_directories entries syntactically
valid paths); the `ConfigError` branch is taken exactly when validation
fails. -/
def createSessionValidation (c : SessionConfig) : ConfigValidity :=
  if c.model ≠ "" && c.skill_directories.all syntacticallyValidPath then
    ConfigValidity.valid
  else ConfigValidity.configError

/-- The observable operations of `main`, in source order: `client.start()`
(line 12), the blog-folder check (lines 18-24), `client.create_session`
(line 27), the session-id print (line 33), the start banner (lines 34-36),
`session.on(handle_event)` (line 46), `session.send_and_wait` (line 54), the
completion banner (lines 56-58), `client.stop()` (line 60). -/
inductive MainAction
  | start
  | checkBlog
  | createSession
  | printSessionId
  | printStartBanner
  | registerHandler
  | sendAndWait
  | printCompleteBanner
  | stop
deriving DecidableEq, Repr

/-- The trace of operations one execution of `main` performs.  The three
Booleans say whether the corresponding awaited call raises; `main` has no
try/finally, so a raised exception propagates and nothing after the raising
call runs (source lines 10-60). -/
def mainTrace (start_raises create_raises send_raises : Bool) :
    List MainAction :=
  [MainAction.start] ++
  (if start_raises then [] else
    [MainAction.checkBlog, MainAction.createSession] ++
    (if create_raises then [] else
      [MainAction.printSessionId, MainAction.printStartBanner,
       MainAction.registerHandler, MainAction.sendAndWait] ++
      (if send_raises then [] else
        [MainAction.printCompleteBanner, MainAction.stop])))

/-- `a` precedes `b` in trace `t`: whenever both occur, the first occurrence
of `a` is strictly before the first occurrence of `b` (each action occurs at
most once in a `main` trace). -/
def precedesIn (a b : MainAction) (t : List MainAction) : Bool :=
  !(t.contains a && t.contains b) ||
    Nat.blt (t.findIdx (· = a)) (t.findIdx (· = b))

/-- One step observable during a `send_and_wait` cycle: an event dispatched
to the registered handlers, or the resolution of the pending call. -/
inductive WaitStep
  | dispatch (e : SessionEvent)
  | resolve
deriving DecidableEq, Repr

/-- Modelled from the spec: the event-processing loop of `sendAndWait` in
the copilot library, which is not part of the repository (spec sections 4.2
and 4.3): every arriving event is first dispatched to the bus, then
inspected by the waiter; the first idle-typed event resolves the wait, and
later events are still dispatched but inert for the waiter. -/
def runCycle : List SessionEvent → List WaitStep
  | [] => []
  | e :: es =>
      WaitStep.dispatch e ::
        (if e.type = SessionEventType.SESSION_IDLE then
          WaitStep.resolve :: es.map WaitStep.dispatch
        else runCycle es)

/-- Outcome of a `sendAndWait` call (spec sections 4.2 and 7). -/
inductive WaitTermination
  | success
  | timeoutError
  | sessionError
deriving DecidableEq, Repr

/-- The session state machine of spec section 4.2. -/
inductive SessionState
  | CREATED
  | ACTIVE
  | IDLE
  | COMPLETED
  | TIMED_OUT
  | FAILED
deriving DecidableEq, Repr

/-- An event together with its arrival time, in seconds from the
`sendAndWait` call. -/
structure TimedEvent where
  time : Nat
  event : SessionEvent
deriving DecidableEq, Repr

/-- What a finished `sendAndWait` cycle leaves behind: how the call ended,
the session state, and the events that were dispatched to handlers before
the end (delivered output is never rolled back). -/
structure WaitOutcome where
  termination : WaitTermination
  state : SessionState
  delivered : List SessionEvent
deriving DecidableEq, Repr

/-- Modelled from the spec: the deadline race of `sendAndWait` in the
copilot library, which is not part of the repository (spec sections 4.2, 5
and 8): events are processed in arrival order; an event past the deadline
means the timer fires first, ending the call with `TimeoutError` in state
`TIMED_OUT`; an idle event within the deadline resolves with success, an
error event fails the session; anything else is dispatched and the wait
continues. -/
def sendAndWaitTimed (timeout : Nat) : List TimedEvent → WaitOutcome
  | [] => ⟨WaitTermination.timeoutError, SessionState.TIMED_OUT, []⟩
  | te :: rest =>
      if timeout < te.time then
        ⟨WaitTermination.timeoutError, SessionState.TIMED_OUT, []⟩
      else if te.event.type = SessionEventType.SESSION_IDLE then
        ⟨WaitTermination.success, SessionState.COMPLETED, [te.event]⟩
      else if te.event.type = SessionEventType.SESSION_ERROR then
        ⟨WaitTermination.sessionError, SessionState.FAILED, [te.event]⟩
      else
        ⟨(sendAndWaitTimed timeout rest).termination,
         (sendAndWaitTimed timeout rest).state,
         te.event :: (sendAndWaitTimed timeout rest).delivered⟩

/-- The timeout the script passes to `send_and_wait` (source line 54):
600 seconds. -/
def mainTimeout : Nat := 600

theorem handle_event_eq_specFragment (e : SessionEvent) (h : WellFormed e) :
    handle_event e = Except.ok (specFragment e) := by
  rcases e with ⟨t, ⟨d⟩⟩
  cases t <;> cases d <;>
    simp_all [handle_event, deltaPart, idlePart, specFragment, WellFormed,
      Except.map, String.append_empty, String.empty_append]

theorem dispatchAll_eq_specStream (events : List SessionEvent)
    (h : ∀ e ∈ events, WellFormed e) :
    dispatchAll events = Except.ok (specStream events) := by
  induction events with
  | nil => rfl
  | cons e es ih =>
      have he : WellFormed e := h e (List.mem_cons_self e es)
      have hes : ∀ x ∈ es, WellFormed x := fun x hx => h x (List.mem_cons_of_mem e hx)
      simp [dispatchAll, handle_event_eq_specFragment e he, ih hes,
        specStream, Except.bind, Except.map]

/-- Claim C1: for every event delivered to the registered handler, a
delta-typed event makes the handler write exactly the `delta_content` field
of the payload to stdout and an idle-typed event makes it write a blank
line, so over any well-formed event sequence the streamed output equals the
in-order concatenation of the delta fragments with a blank line at each
idle. -/
theorem C1_handler_streams_deltas_and_blank_line :
    (∀ s d, handle_event ⟨SessionEventType.ASSISTANT_MESSAGE_DELTA, ⟨some s⟩⟩
        = Except.ok s →
      handle_event ⟨SessionEventType.SESSION_IDLE, d⟩ = Except.ok ("\n" ++ "\n"))
    ∧ (∀ events : List SessionEvent, (∀ e ∈ events, WellFormed e) →
        dispatchAll events = Except.ok (specStream events)) := by
  constructor
  · intro s d _
    rcases d with ⟨d⟩
    cases d <;> rfl
  · exact dispatchAll_eq_specStream

/-- Witness for C1 at a concrete sequence: delta "Hel", delta "lo", idle. -/
theorem C1_witness :
    (∀ e ∈ [(⟨SessionEventType.ASSISTANT_MESSAGE_DELTA, ⟨some "Hel"⟩⟩ : SessionEvent),
            ⟨SessionEventType.ASSISTANT_MESSAGE_DELTA, ⟨some "lo"⟩⟩,
            ⟨SessionEventType.SESSION_IDLE, ⟨none⟩⟩], WellFormed e)
    ∧ dispatchAll
        [⟨SessionEventType.ASSISTANT_MESSAGE_DELTA, ⟨some "Hel"⟩⟩,
         ⟨SessionEventType.ASSISTANT_MESSAGE_DELTA, ⟨some "lo"⟩⟩,
         ⟨SessionEventType.SESSION_IDLE, ⟨none⟩⟩]
        = Except.ok (specStream
            [⟨SessionEventType.ASSISTANT_MESSAGE_DELTA, ⟨some "Hel"⟩⟩,
             ⟨SessionEventType.ASSISTANT_MESSAGE_DELTA, ⟨some "lo"⟩⟩,
             ⟨SessionEventType.SESSION_IDLE, ⟨none⟩⟩]) :=
  ⟨by decide,
   C1_handler_streams_deltas_and_blank_line.2 _ (by decide)⟩

/-- Claim C2 (code bug): the claim requires `client.stop()` on every exit
path of `main`, error paths included; the code has no try/finally, so when
`send_and_wait` raises (for example `TimeoutError`) the exception propagates
out of `main` and `stop` is never invoked.  `stop` runs only on the fully
normal path. -/
theorem C2_stop_skipped_when_send_and_wait_raises :
    MainAction.stop ∉ mainTrace false false true
    ∧ MainAction.stop ∈ mainTrace false false false := by
  decide

/-- Claim C3: for every sequence of delta events followed by one idle event
delivered during a `send_and_wait` cycle, the call resolves successfully
exactly once, after the idle event has been dispatched to the handlers and
never before it: the cycle trace is exactly the in-order dispatches followed
by the single resolution. -/
theorem C3_resolves_once_after_idle_dispatch
    (deltas : List SessionEvent) (idle : SessionEvent)
    (hd : ∀ e ∈ deltas, e.type = SessionEventType.ASSISTANT_MESSAGE_DELTA)
    (hi : idle.type = SessionEventType.SESSION_IDLE) :
    runCycle (deltas ++ [idle])
      = (deltas ++ [idle]).map WaitStep.dispatch ++ [WaitStep.resolve]
    ∧ (runCycle (deltas ++ [idle])).count WaitStep.resolve = 1 := by
  have h : runCycle (deltas ++ [idle])
      = (deltas ++ [idle]).map WaitStep.dispatch ++ [WaitStep.resolve] := by
    induction deltas with
    | nil => simp [runCycle, hi]
    | cons e es ih =>
        have he := hd e (List.mem_cons_self e es)
        simp [List.cons_append, runCycle, he,
          ih (fun x hx => hd x (List.mem_cons_of_mem e hx))]
  have h0 : WaitStep.resolve ∉ (deltas ++ [idle]).map WaitStep.dispatch := by
    simp [List.mem_map]
  refine ⟨h, ?_⟩
  rw [h, List.count_append, List.count_eq_zero.mpr h0]
  rfl

/-- Witness for C3: one delta then one idle. -/
theorem C3_witness :
    runCycle
        [⟨SessionEventType.ASSISTANT_MESSAGE_DELTA, ⟨some "a"⟩⟩,
         ⟨SessionEventType.SESSION_IDLE, ⟨none⟩⟩]
      = [WaitStep.dispatch ⟨SessionEventType.ASSISTANT_MESSAGE_DELTA, ⟨some "a"⟩⟩,
         WaitStep.dispatch ⟨SessionEventType.SESSION_IDLE, ⟨none⟩⟩,
         WaitStep.resolve]
    ∧ (runCycle
        [⟨SessionEventType.ASSISTANT_MESSAGE_DELTA, ⟨some "a"⟩⟩,
         ⟨SessionEventType.SESSION_IDLE, ⟨none⟩⟩]).count WaitStep.resolve = 1 := by
  have h := C3_resolves_once_after_idle_dispatch
    [⟨SessionEventType.ASSISTANT_MESSAGE_DELTA, ⟨some "a"⟩⟩]
    ⟨SessionEventType.SESSION_IDLE, ⟨none⟩⟩ (by decide) rfl
  simpa using h

/-- Claim C4 counterexample: on a run whose events are one delta "hi" and
one idle, the handler stream is exactly the delta text plus a blank line,
yet the stdout of the script is not equal to that stream — the script also
prints folder status, session id, and banners. -/
theorem C4_counterexample :
    dispatchAll
        [⟨SessionEventType.ASSISTANT_MESSAGE_DELTA, ⟨some "hi"⟩⟩,
         ⟨SessionEventType.SESSION_IDLE, ⟨none⟩⟩]
      = Except.ok (specStream
          [⟨SessionEventType.ASSISTANT_MESSAGE_DELTA, ⟨some "hi"⟩⟩,
           ⟨SessionEventType.SESSION_IDLE, ⟨none⟩⟩])
    ∧ mainStdout "/work" true "sid-1"
        (specStream
          [⟨SessionEventType.ASSISTANT_MESSAGE_DELTA, ⟨some "hi"⟩⟩,
           ⟨SessionEventType.SESSION_IDLE, ⟨none⟩⟩])
      ≠ specStream
          [⟨SessionEventType.ASSISTANT_MESSAGE_DELTA, ⟨some "hi"⟩⟩,
           ⟨SessionEventType.SESSION_IDLE, ⟨none⟩⟩] := by
  constructor
  · rfl
  · decide

/-- Claim C4 as amended: the stdout of the script on a default run is the
streamed handler output (delta fragments, blank line at each idle) framed by
fixed status text — the folder status, session id and start banner before
the stream, and the completion banner after it; within the streaming segment
nothing but the handler output is written. -/
theorem C4_output_is_prelude_stream_epilogue
    (work_dir session_id : String) (blogExists : Bool)
    (events : List SessionEvent) (s : String)
    (hwf : ∀ e ∈ events, WellFormed e)
    (hs : dispatchAll events = Except.ok s) :
    mainStdout work_dir blogExists session_id s
      = preludeOut work_dir blogExists session_id
          ++ specStream events ++ epilogueOut := by
  have hs2 : s = specStream events := by
    have h := hs.symm.trans (dispatchAll_eq_specStream events hwf)
    injection h
  subst hs2
  apply String.ext
  simp [mainStdout, preludeOut, epilogueOut, List.append_assoc]

/-- Witness for the amended C4 at the one-idle-event run. -/
theorem C4_witness :
    mainStdout "/w" false "sid"
        (specStream [⟨SessionEventType.SESSION_IDLE, ⟨none⟩⟩])
      = preludeOut "/w" false "sid"
          ++ specStream [⟨SessionEventType.SESSION_IDLE, ⟨none⟩⟩]
          ++ epilogueOut :=
  C4_output_is_prelude_stream_epilogue "/w" "sid" false
    [⟨SessionEventType.SESSION_IDLE, ⟨none⟩⟩] _ (by decide) rfl

/-- Claim C5: in every execution of `main` (whether each awaited call
returns or raises) the operations respect the specified order:
`client.start()` before session creation, handler registration via
`session.on` before `send_and_wait`, `send_and_wait` before the completion
banner and before `client.stop()`, and the completion banner before
`stop`. -/
theorem C5_control_flow_order :
    ∀ sr cr er : Bool,
      (precedesIn MainAction.start MainAction.createSession
          (mainTrace sr cr er)
        && precedesIn MainAction.createSession MainAction.registerHandler
          (mainTrace sr cr er)
        && precedesIn MainAction.registerHandler MainAction.sendAndWait
          (mainTrace sr cr er)
        && precedesIn MainAction.sendAndWait MainAction.printCompleteBanner
          (mainTrace sr cr er)
        && precedesIn MainAction.sendAndWait MainAction.stop
          (mainTrace sr cr er)
        && precedesIn MainAction.printCompleteBanner MainAction.stop
          (mainTrace sr cr er)) = true := by
  decide

/-- Claim C6: when no idle or error event arrives within the 600-second
timeout of the script, `send_and_wait` ends with `TimeoutError` determined
at the deadline and not earlier, the session is left in `TIMED_OUT`, and
every delta dispatched before the deadline stays delivered (not rolled
back). -/
theorem C6_timeout_outcome (events : List TimedEvent)
    (h : ∀ te ∈ events,
      (te.event.type = SessionEventType.SESSION_IDLE ∨
       te.event.type = SessionEventType.SESSION_ERROR) →
      mainTimeout < te.time) :
    (sendAndWaitTimed mainTimeout events).termination
        = WaitTermination.timeoutError
    ∧ (sendAndWaitTimed mainTimeout events).state = SessionState.TIMED_OUT
    ∧ (sendAndWaitTimed mainTimeout events).delivered
        = (events.takeWhile (fun te => te.time ≤ mainTimeout)).map
            TimedEvent.event := by
  induction events with
  | nil => exact ⟨rfl, rfl, rfl⟩
  | cons te rest ih =>
      have hte := h te (List.mem_cons_self te rest)
      obtain ⟨ih1, ih2, ih3⟩ := ih (fun x hx => h x (List.mem_cons_of_mem te hx))
      by_cases ht : mainTimeout < te.time
      · have hgt : ¬ te.time ≤ mainTimeout := by omega
        simp [sendAndWaitTimed, ht, List.takeWhile_cons, decide_eq_false hgt]
      · have hle : te.time ≤ mainTimeout := Nat.le_of_not_lt ht
        have hni : te.event.type ≠ SessionEventType.SESSION_IDLE :=
          fun hh => ht (hte (Or.inl hh))
        have hne : te.event.type ≠ SessionEventType.SESSION_ERROR :=
          fun hh => ht (hte (Or.inr hh))
        simp [sendAndWaitTimed, ht, hni, hne, List.takeWhile_cons,
          decide_eq_true hle, ih1, ih2, ih3]

/-- Witness for C6: a delta at second 5 and an idle only at second 700; the
call times out in `TIMED_OUT` with the delta still delivered. -/
theorem C6_witness :
    (sendAndWaitTimed mainTimeout
        [⟨5, ⟨SessionEventType.ASSISTANT_MESSAGE_DELTA, ⟨some "x"⟩⟩⟩,
         ⟨700, ⟨SessionEventType.SESSION_IDLE, ⟨none⟩⟩⟩]).termination
        = WaitTermination.timeoutError
    ∧ (sendAndWaitTimed mainTimeout
        [⟨5, ⟨SessionEventType.ASSISTANT_MESSAGE_DELTA, ⟨some "x"⟩⟩⟩,
         ⟨700, ⟨SessionEventType.SESSION_IDLE, ⟨none⟩⟩⟩]).state
        = SessionState.TIMED_OUT
    ∧ (sendAndWaitTimed mainTimeout
        [⟨5, ⟨SessionEventType.ASSISTANT_MESSAGE_DELTA, ⟨some "x"⟩⟩⟩,
         ⟨700, ⟨SessionEventType.SESSION_IDLE, ⟨none⟩⟩⟩]).delivered
        = [⟨SessionEventType.ASSISTANT_MESSAGE_DELTA, ⟨some "x"⟩⟩] := by
  have h := C6_timeout_outcome
    [⟨5, ⟨SessionEventType.ASSISTANT_MESSAGE_DELTA, ⟨some "x"⟩⟩⟩,
     ⟨700, ⟨SessionEventType.SESSION_IDLE, ⟨none⟩⟩⟩] (by decide)
  simpa using h

/-- Claim C7: the blog-folder bootstrap creates `<cwd>/blog` exactly when it
does not already exist, leaves the filesystem unchanged when it does, and in
either case touches no path other than `<cwd>/blog`. -/
theorem C7_blog_folder_step (work_dir : String) (fs : List String) :
    (blog_dir work_dir ∉ fs →
      blogStep work_dir fs = blog_dir work_dir :: fs)
    ∧ (blog_dir work_dir ∈ fs → blogStep work_dir fs = fs)
    ∧ (∀ p, p ≠ blog_dir work_dir →
        (p ∈ blogStep work_dir fs ↔ p ∈ fs)) := by
  refine ⟨fun h => by simp [blogStep, h], fun h => by simp [blogStep, h],
    fun p hp => ?_⟩
  by_cases hb : blog_dir work_dir ∈ fs <;> simp [blogStep, hb, hp]

/-- Witness for C7: creation when absent, no-op when present, and an
unrelated path untouched. -/
theorem C7_witness :
    blogStep "/w" ["/w"] = blog_dir "/w" :: ["/w"]
    ∧ blogStep "/w" [blog_dir "/w"] = [blog_dir "/w"]
    ∧ ("/other" ∈ blogStep "/w" ["/w"] ↔ "/other" ∈ (["/w"] : List String)) :=
  ⟨(C7_blog_folder_step "/w" ["/w"]).1 (by decide),
   (C7_blog_folder_step "/w" [blog_dir "/w"]).2.1 (by decide),
   (C7_blog_folder_step "/w" ["/w"]).2.2 "/other" (by decide)⟩

/-- Claim C8: the config literal the script passes to `create_session`
passes the validation described in the spec — non-empty model identifier,
Boolean streaming flag, and a single syntactically valid skill path — so the
`ConfigError` branch is unreachable for this config. -/
theorem C8_config_passes_validation :
    createSessionValidation sessionConfig = ConfigValidity.valid
    ∧ sessionConfig.model ≠ ""
    ∧ sessionConfig.streaming = true
    ∧ sessionConfig.skill_directories = [skills_dir]
    ∧ syntacticallyValidPath skills_dir = true := by
  decide

/-- Claim C9: the handler never accesses the payload of a `SESSION_IDLE`
event — an idle event with empty or absent payload cannot make it raise, and
its result is independent of the payload; the only payload attribute the
handler can touch is `delta_content`, and only on delta-typed events, so on
every non-delta event the result is payload-independent and never an
error. -/
theorem C9_idle_handler_ignores_data :
    (∀ d, handle_event ⟨SessionEventType.SESSION_IDLE, d⟩
        = Except.ok ("\n" ++ "\n"))
    ∧ (∀ t d dAlt, t ≠ SessionEventType.ASSISTANT_MESSAGE_DELTA →
        handle_event ⟨t, d⟩ = handle_event ⟨t, dAlt⟩
        ∧ ∃ s, handle_event ⟨t, d⟩ = Except.ok s) := by
  constructor
  · intro d
    rcases d with ⟨d⟩
    cases d <;> rfl
  · intro t d dAlt ht
    rcases d with ⟨d⟩
    rcases dAlt with ⟨dAlt⟩
    cases t <;> cases d <;> cases dAlt <;>
      simp_all [handle_event, deltaPart, idlePart, Except.map]

/-- Witness for C9: an idle event whose payload lacks `delta_content`, and
payload-independence of a `SESSION_ERROR` event. -/
theorem C9_witness :
    handle_event ⟨SessionEventType.SESSION_IDLE, ⟨none⟩⟩
        = Except.ok ("\n" ++ "\n")
    ∧ handle_event ⟨SessionEventType.SESSION_ERROR, ⟨none⟩⟩
        = handle_event ⟨SessionEventType.SESSION_ERROR, ⟨some "x"⟩⟩ :=
  ⟨C9_idle_handler_ignores_data.1 ⟨none⟩,
   (C9_idle_handler_ignores_data.2 SessionEventType.SESSION_ERROR ⟨none⟩ ⟨some "x"⟩
      (by decide)).1⟩

/-- Claim C10: on every event whose type is neither
`ASSISTANT_MESSAGE_DELTA` nor `SESSION_IDLE` the registered handler writes
nothing and has no effect — it silently ignores the event. -/
theorem C10_other_events_ignored (t : SessionEventType) (d : EventData)
    (hd : t ≠ SessionEventType.ASSISTANT_MESSAGE_DELTA)
    (hi : t ≠ SessionEventType.SESSION_IDLE) :
    handle_event ⟨t, d⟩ = Except.ok "" := by
  rcases d with ⟨d⟩
  cases t <;> cases d <;>
    simp_all [handle_event, deltaPart, idlePart, Except.map]

/-- Witness for C10: a tool-call event produces no output. -/
theorem C10_witness :
    handle_event ⟨SessionEventType.TOOL_CALL, ⟨some "irrelevant"⟩⟩
        = Except.ok "" :=
  C10_other_events_ignored SessionEventType.TOOL_CALL ⟨some "irrelevant"⟩
    (by decide) (by decide)

end PrTrigger
